import Mathlib

/-!
Verification of the token-based authorization control plane of the
vocabulary-learning backend (apps/tokens): data model, authentication
middleware, permission middleware, lifecycle actions and usage metering,
embedded shallowly from the Python source.  Timestamps are modelled as
integer seconds; Django query sets as lists; Python truthiness of
optional values and lists is made explicit at each use site.
-/

namespace VocaTokens

/-- A mobile app token row (apps/tokens/models.py, class MobileAppToken):
the fields read by the middleware and lifecycle actions. -/
structure MobileToken where
  id : String
  token : String
  name : String
  role : String
  status : String
  expires_at : Option Int
  usage_count : Nat
  max_usage_count : Option Nat
  allowed_ips : List String
deriving DecidableEq, Repr

/-- One per-(token, model) permission row
(apps/tokens/models.py, class TokenModelPermission). -/
structure TokenModelPermission where
  model_name : String
  can_create : Bool
  can_read : Bool
  can_update : Bool
  can_delete : Bool
  can_list : Bool
  can_bulk_create : Bool
  can_bulk_update : Bool
  can_bulk_delete : Bool
  restricted_fields : List String
  readonly_fields : List String
deriving DecidableEq, Repr

/-- An API client token row (apps/tokens/models.py, class APIClientToken),
with its owned permission rows (related name model_permissions). -/
structure APIToken where
  id : String
  token : String
  name : String
  client_name : String
  status : String
  expires_at : Option Int
  usage_count : Nat
  max_usage_count : Option Nat
  rate_limit_per_hour : Nat
  rate_limit_per_day : Nat
  allowed_ips : List String
  allowed_endpoints : List String
  model_permissions : List TokenModelPermission
deriving DecidableEq, Repr

/-- A usage-log row (apps/tokens/models.py, class TokenUsageLog): the three
fields the rate limiter filters on. -/
structure UsageLog where
  token_type : String
  token_id : String
  timestamp : Int
deriving DecidableEq, Repr

/-- The record store: the three tables the middleware reads. -/
structure DB where
  mobileTokens : List MobileToken
  apiTokens : List APIToken
  usageLogs : List UsageLog
deriving Repr

/-- The slice of a Django request the token middleware reads:
path, method, the three META entries, and user.is_authenticated. -/
structure Request where
  path : String
  method : String
  http_authorization : String
  http_x_forwarded_for : Option String
  remote_addr : String
  user_is_authenticated : Bool
deriving DecidableEq, Repr

/-- Character-list test that `p` is an initial segment of `s`
(Python str.startswith, evaluated on explicit characters). -/
def listIsPre : List Char → List Char → Bool
  | [], _ => true
  | _ :: _, [] => false
  | a :: as, b :: bs => a == b && listIsPre as bs

/-- Python `p in s` on strings restated on character lists: `needle`
occurs contiguously inside the second list. -/
def listHasSub : List Char → List Char → Bool
  | needle, [] => listIsPre needle []
  | needle, b :: bs => listIsPre needle (b :: bs) || listHasSub needle bs

/-- Python str.startswith. -/
def strStarts (s p : String) : Bool := listIsPre p.toList s.toList

/-- Python substring containment `sub in hay`. -/
def strContains (hay sub : String) : Bool := listHasSub sub.toList hay.toList

/-- Python str.split on a single separator character, keeping empty
pieces (so "Bearer  x" split on a space gives three pieces, the middle
one empty). -/
def splitCharsOn (sep : Char) : List Char → List (List Char)
  | [] => [[]]
  | c :: cs =>
    let r := splitCharsOn sep cs
    if c == sep then [] :: r
    else
      match r with
      | [] => [[c]]
      | h :: t => (c :: h) :: t

/-- Python s.split(sep) (single-character separator) as strings. -/
def pySplit (sep : Char) (s : String) : List String :=
  (splitCharsOn sep s.toList).map (fun l => String.mk l)

/-- MobileAppToken.is_valid (apps/tokens/models.py lines 80-91).
Mirrors Python truthiness: an unset expiry is skipped, and an unset OR
ZERO max_usage_count is skipped (0 is falsy in Python). -/
def MobileToken.is_valid (t : MobileToken) (now : Int) : Bool :=
  if t.status != "active" then false
  else if (match t.expires_at with
           | some e => decide (e ≤ now)
           | none => false) then false
  else if (match t.max_usage_count with
           | some m => m != 0 && decide (t.usage_count ≥ m)
           | none => false) then false
  else true

/-- APIClientToken.is_valid (apps/tokens/models.py lines 179-190);
textually the same body as the mobile variant. -/
def APIToken.is_valid (t : APIToken) (now : Int) : Bool :=
  if t.status != "active" then false
  else if (match t.expires_at with
           | some e => decide (e ≤ now)
           | none => false) then false
  else if (match t.max_usage_count with
           | some m => m != 0 && decide (t.usage_count ≥ m)
           | none => false) then false
  else true

/-- The validity formula exactly as the claim words it: status active,
expiry unset or strictly in the future, max usage unset or usage
strictly below it.  Stated from the spec sentence for comparison with
the is_valid methods embedded from the source. -/
def claim_valid (status : String) (expires_at : Option Int)
    (usage_count : Nat) (max_usage_count : Option Nat) (now : Int) : Bool :=
  status == "active" &&
  (match expires_at with
   | some e => decide (now < e)
   | none => true) &&
  (match max_usage_count with
   | some m => decide (usage_count < m)
   | none => true)

/-- The paths TokenAuthenticationMiddleware never authenticates
(apps/tokens/middleware.py, EXEMPT_PATHS). -/
def EXEMPT_PATHS : List String :=
  ["/admin/", "/api/auth/", "/api/tokens/validate/", "/api/docs/", "/api/schema/"]

/-- TokenAuthenticationMiddleware.get_client_ip (middleware.py lines
228-235): first comma-piece of the forwarded-for header when that header
is present and truthy, otherwise REMOTE_ADDR. -/
def get_client_ip (req : Request) : String :=
  match req.http_x_forwarded_for with
  | some s => if s == "" then req.remote_addr else ((pySplit ',' s).headD "")
  | none => req.remote_addr

/-- Result of TokenAuthenticationMiddleware.validate_token: the source
returns a dict with valid plus an error, or valid plus the token data;
the token data is kept as the whole matched row. -/
inductive ValidateResult where
  | invalid : String → ValidateResult
  | okMobile : MobileToken → ValidateResult
  | okApi : APIToken → ValidateResult
deriving DecidableEq, Repr

/-- Number of api usage-log rows for this token in the trailing hour
(middleware.py lines 150-156, filter token_type, token_id,
timestamp__gte = now - 1 hour). -/
def hourly_usage (db : DB) (t : APIToken) (now : Int) : Nat :=
  (db.usageLogs.filter (fun l =>
    l.token_type == "api" && l.token_id == t.id &&
      decide (now - 3600 ≤ l.timestamp))).length

/-- Number of api usage-log rows for this token in the trailing day
(middleware.py lines 164-170). -/
def daily_usage (db : DB) (t : APIToken) (now : Int) : Nat :=
  (db.usageLogs.filter (fun l =>
    l.token_type == "api" && l.token_id == t.id &&
      decide (now - 86400 ≤ l.timestamp))).length

/-- TokenAuthenticationMiddleware.check_rate_limits (middleware.py lines
146-178): some error message when a window ceiling is reached, none when
allowed.  The comparisons are the source's >= tests. -/
def check_rate_limits (db : DB) (t : APIToken) (now : Int) : Option String :=
  if hourly_usage db t now ≥ t.rate_limit_per_hour then
    some ("Hourly rate limit exceeded (" ++ toString t.rate_limit_per_hour
      ++ " requests/hour)")
  else if daily_usage db t now ≥ t.rate_limit_per_day then
    some ("Daily rate limit exceeded (" ++ toString t.rate_limit_per_day
      ++ " requests/day)")
  else none

/-- TokenAuthenticationMiddleware.validate_token (middleware.py lines
74-144): prefix dispatch, exact-secret lookup, is_valid, IP allow-list
(list membership, skipped when the list is empty because an empty Python
list is falsy), api endpoint allow-list (exact list membership of the
request path), then api rate limits. -/
def validate_token (db : DB) (token_value : String) (req : Request)
    (now : Int) : ValidateResult :=
  let ip_address := get_client_ip req
  if strStarts token_value "mob_" then
    match db.mobileTokens.find? (fun t => t.token == token_value) with
    | none => .invalid "Mobile token not found"
    | some t =>
      if !t.is_valid now then .invalid "Token is expired or inactive"
      else if !t.allowed_ips.isEmpty && !t.allowed_ips.contains ip_address then
        .invalid "IP address not allowed"
      else .okMobile t
  else if strStarts token_value "api_" then
    match db.apiTokens.find? (fun t => t.token == token_value) with
    | none => .invalid "API token not found"
    | some t =>
      if !t.is_valid now then .invalid "Token is expired or inactive"
      else if !t.allowed_ips.isEmpty && !t.allowed_ips.contains ip_address then
        .invalid "IP address not allowed"
      else if !t.allowed_endpoints.isEmpty
          && !t.allowed_endpoints.contains req.path then
        .invalid "Endpoint not allowed"
      else
        match check_rate_limits db t now with
        | some err => .invalid err
        | none => .okApi t
  else .invalid "Invalid token format"

/-- What TokenAuthenticationMiddleware.process_request produces: Python
None with nothing attached (pass through), a JsonResponse carrying a
status plus the constant error field plus the message, or Python None
with request.token_data attached. -/
inductive AuthOutcome where
  | passThrough : AuthOutcome
  | rejected : Nat → String → String → AuthOutcome
  | attachedMobile : MobileToken → AuthOutcome
  | attachedApi : APIToken → AuthOutcome
deriving DecidableEq, Repr

/-- middleware.py line 41: auth_header.split(' ')[1] when a second piece
exists, else the empty string. -/
def extract_token_value (auth_header : String) : String :=
  ((pySplit ' ' auth_header).get? 1).getD ""

/-- TokenAuthenticationMiddleware.process_request (middleware.py lines
25-63): exempt paths and already-authenticated users pass through, a
non-Bearer or empty credential passes through, every validation failure
becomes a 401 JsonResponse whose error field is the constant
"Invalid token", and a validated token is attached to the request. -/
def process_request (db : DB) (req : Request) (now : Int) : AuthOutcome :=
  if EXEMPT_PATHS.any (fun p => strStarts req.path p) then .passThrough
  else if req.user_is_authenticated then .passThrough
  else if !strStarts req.http_authorization "Bearer " then .passThrough
  else
    let token_value := extract_token_value req.http_authorization
    if token_value == "" then .passThrough
    else
      match validate_token db token_value req now with
      | .invalid err => .rejected 401 "Invalid token" err
      | .okMobile t => .attachedMobile t
      | .okApi t => .attachedApi t

/-- The inputs TokenPermissionMiddleware.process_view reads off the
request and the resolved view: the attached token data (token type and
token id; none of the rest is consulted), the HTTP method, the resolved
url_name, the model name of the view class queryset when the view has
one, and whether the try block raised some exception while resolving the
route, view class or permission rows (any exception other than the
token-lookup DoesNotExist, which the source handles explicitly). -/
structure PermViewInput where
  token_type : Option String
  token_id : String
  method : String
  url_name : Option String
  view_model : Option String
  raises : Bool
deriving DecidableEq, Repr

/-- TokenPermissionMiddleware.process_view (middleware.py lines 243-324):
none models the Python return None (request continues to the view);
some (status, error, message) models the early JsonResponse.  Non-api
requests skip, a raised exception is swallowed by the outer except and
the request continues, a view without a queryset is skipped, a missing
token row gives 401, a missing permission row gives 403 before any
method dispatch, and the per-method CRUD bits give 403 when absent. -/
def process_view (db : DB) (inp : PermViewInput) : Option (Nat × String × String) :=
  if inp.token_type != some "api" then none
  else if inp.raises then none
  else
    match inp.view_model with
    | none => none
    | some model_name =>
      match db.apiTokens.find? (fun t => t.id == inp.token_id) with
      | none => some (401, "Invalid token", "API token not found")
      | some t =>
        match (t.model_permissions.filter
            (fun p => p.model_name == model_name)).head? with
        | none =>
          some (403, "Permission denied",
            "Token does not have permissions for " ++ model_name)
        | some permission =>
          let method := inp.method.toUpper
          if method == "GET" &&
              (match inp.url_name with
               | some u => u != "" && strContains u "list"
               | none => false) then
            if !permission.can_list then
              some (403, "Permission denied",
                "Token does not have list permission for " ++ model_name)
            else none
          else if method == "GET" then
            if !permission.can_read then
              some (403, "Permission denied",
                "Token does not have read permission for " ++ model_name)
            else none
          else if method == "POST" then
            if !permission.can_create then
              some (403, "Permission denied",
                "Token does not have create permission for " ++ model_name)
            else none
          else if method == "PUT" || method == "PATCH" then
            if !permission.can_update then
              some (403, "Permission denied",
                "Token does not have update permission for " ++ model_name)
            else none
          else if method == "DELETE" then
            if !permission.can_delete then
              some (403, "Permission denied",
                "Token does not have delete permission for " ++ model_name)
            else none
          else none

/-- MobileAppTokenViewSet.activate (apps/tokens/views.py lines 66-76):
sets status to active unconditionally and saves. -/
def MobileToken.activate (t : MobileToken) : MobileToken :=
  { t with status := "active" }

/-- MobileAppTokenViewSet.revoke (views.py lines 54-64). -/
def MobileToken.revoke (t : MobileToken) : MobileToken :=
  { t with status := "revoked" }

/-- APIClientTokenViewSet.activate (views.py lines 197-207):
sets status to active unconditionally and saves. -/
def APIToken.activate (t : APIToken) : APIToken :=
  { t with status := "active" }

/-- APIClientTokenViewSet.revoke (views.py lines 185-195). -/
def APIToken.revoke (t : APIToken) : APIToken :=
  { t with status := "revoked" }

/-- The status updates of APIClientTokenViewSet.bulk_action (views.py
lines 293-325) applied to the selected rows; the delete branch removes
rows and is not a status transition. -/
def bulk_action_status (tokens : List APIToken) (action_type : String) :
    List APIToken :=
  if action_type == "activate" then
    tokens.map (fun t => { t with status := "active" })
  else if action_type == "deactivate" then
    tokens.map (fun t => { t with status := "inactive" })
  else if action_type == "revoke" then
    tokens.map (fun t => { t with status := "revoked" })
  else tokens

/-- The atomic storage-layer counter update the middleware issues
(middleware.py lines 206-220): filter(id).update with the F-expression
usage_count = F(usage_count) + 1, evaluated inside the store in one
step. -/
def f_expression_increment (usage_count : Nat) : Nat := usage_count + 1

/-- A run of k authorized requests metered through log_token_usage: each
applies the atomic F-expression update once at the store, so any
interleaving is some serial order of k one-step updates. -/
def run_atomic (db0 : Nat) : Nat → Nat
  | 0 => db0
  | k + 1 => f_expression_increment (run_atomic db0 k)

/-- Store counter plus the in-memory usage_count attribute of two
concurrent requests that each run increment_usage
(apps/tokens/models.py lines 93-97: self.usage_count += 1 then save),
which reads the row first and writes the computed value back. -/
structure RmwState where
  db : Nat
  r1 : Option Nat
  r2 : Option Nat
deriving DecidableEq, Repr

/-- One storage-boundary step of an increment_usage call by request 1 or
request 2: the read loads the row into the instance attribute, the write
saves attribute + 1 back. -/
inductive RmwAction where
  | read1 | write1 | read2 | write2
deriving DecidableEq, Repr

/-- Effect of one increment_usage step on the store. -/
def rmw_step (s : RmwState) : RmwAction → RmwState
  | .read1 => { s with r1 := some s.db }
  | .write1 =>
    match s.r1 with
    | some v => { s with db := v + 1 }
    | none => s
  | .read2 => { s with r2 := some s.db }
  | .write2 =>
    match s.r2 with
    | some v => { s with db := v + 1 }
    | none => s

/-- An interleaved schedule of increment_usage steps, run in order. -/
def rmw_run (s : RmwState) (sched : List RmwAction) : RmwState :=
  sched.foldl rmw_step s

/-- The endpoint-restriction test exactly as the claim words it: the
request path matches some allowed substring.  Stated from the spec
sentence for comparison with validate_token, which uses exact list
membership instead. -/
def spec_endpoint_allowed (entries : List String) (path : String) : Bool :=
  entries.any (fun e => strContains path e)

/-- A mobile token that is active, unexpired, with max_usage_count set
to 0 and a positive usage count. -/
def c2tok : MobileToken :=
  { id := "m2", token := "mob_c2", name := "c2", role := "user",
    status := "active", expires_at := none, usage_count := 1,
    max_usage_count := some 0, allowed_ips := [] }

/-- A revoked mobile token. -/
def c3mob : MobileToken :=
  { id := "m3", token := "mob_c3", name := "c3", role := "user",
    status := "revoked", expires_at := none, usage_count := 0,
    max_usage_count := none, allowed_ips := [] }

/-- A revoked API client token. -/
def c3api : APIToken :=
  { id := "a3", token := "api_c3", name := "c3", client_name := "org",
    status := "revoked", expires_at := none, usage_count := 0,
    max_usage_count := none, rate_limit_per_hour := 1000,
    rate_limit_per_day := 10000, allowed_ips := [], allowed_endpoints := [],
    model_permissions := [] }

/-- An empty record store. -/
def c4db : DB := { mobileTokens := [], apiTokens := [], usageLogs := [] }

/-- A request on a non-exempt path carrying a bearer credential that
starts with neither literal prefix (a JWT-shaped value). -/
def c4req : Request :=
  { path := "/api/words/", method := "GET",
    http_authorization := "Bearer eyJhbGciOi",
    http_x_forwarded_for := none, remote_addr := "1.2.3.4",
    user_is_authenticated := false }

/-- A valid API client token whose hourly ceiling is 1. -/
def c5tok : APIToken :=
  { id := "a5", token := "api_c5", name := "c5", client_name := "org",
    status := "active", expires_at := none, usage_count := 0,
    max_usage_count := none, rate_limit_per_hour := 1,
    rate_limit_per_day := 10, allowed_ips := [], allowed_endpoints := [],
    model_permissions := [] }

/-- Store with c5tok and one usage-log row 100 seconds old at time
3600. -/
def c5db : DB :=
  { mobileTokens := [], apiTokens := [c5tok],
    usageLogs := [{ token_type := "api", token_id := "a5", timestamp := 3500 }] }

/-- A request presenting c5tok. -/
def c5req : Request :=
  { path := "/api/words/", method := "GET",
    http_authorization := "Bearer api_c5",
    http_x_forwarded_for := none, remote_addr := "1.2.3.4",
    user_is_authenticated := false }

/-- A valid mobile token restricted to the IP 10.0.0.1. -/
def c6tok : MobileToken :=
  { id := "m6", token := "mob_c6", name := "c6", role := "user",
    status := "active", expires_at := none, usage_count := 0,
    max_usage_count := none, allowed_ips := ["10.0.0.1"] }

/-- Store holding c6tok. -/
def c6db : DB := { mobileTokens := [c6tok], apiTokens := [], usageLogs := [] }

/-- A request presenting c6tok from the address 10.0.0.2. -/
def c6req : Request :=
  { path := "/api/words/", method := "GET",
    http_authorization := "Bearer mob_c6",
    http_x_forwarded_for := none, remote_addr := "10.0.0.2",
    user_is_authenticated := false }

/-- A valid API client token whose endpoint allow-list holds the
path "/api/words/". -/
def c7tok : APIToken :=
  { id := "a7", token := "api_c7", name := "c7", client_name := "org",
    status := "active", expires_at := none, usage_count := 0,
    max_usage_count := none, rate_limit_per_hour := 1000,
    rate_limit_per_day := 10000, allowed_ips := [],
    allowed_endpoints := ["/api/words/"], model_permissions := [] }

/-- Store holding c7tok and no usage logs. -/
def c7db : DB := { mobileTokens := [], apiTokens := [c7tok], usageLogs := [] }

/-- A request presenting c7tok whose path contains the allowed entry as
a substring without being equal to it. -/
def c7req : Request :=
  { path := "/api/words/1/", method := "GET",
    http_authorization := "Bearer api_c7",
    http_x_forwarded_for := none, remote_addr := "1.2.3.4",
    user_is_authenticated := false }

/-- A request presenting c7tok on a path unrelated to the allow-list. -/
def c7wreq : Request :=
  { path := "/foo/", method := "GET",
    http_authorization := "Bearer api_c7",
    http_x_forwarded_for := none, remote_addr := "1.2.3.4",
    user_is_authenticated := false }

/-- A request carrying an api-prefixed credential unknown to the
store. -/
def c9req : Request :=
  { path := "/api/words/", method := "GET",
    http_authorization := "Bearer api_unknown",
    http_x_forwarded_for := none, remote_addr := "1.2.3.4",
    user_is_authenticated := false }

/-- A revoked API client token for the expired/inactive failure cause. -/
def c9tok : APIToken :=
  { id := "a9", token := "api_c9", name := "c9", client_name := "org",
    status := "revoked", expires_at := none, usage_count := 0,
    max_usage_count := none, rate_limit_per_hour := 1000,
    rate_limit_per_day := 10000, allowed_ips := [], allowed_endpoints := [],
    model_permissions := [] }

/-- Store holding the revoked token c9tok. -/
def c9db : DB := { mobileTokens := [], apiTokens := [c9tok], usageLogs := [] }

/-- A request presenting the revoked token c9tok. -/
def c9req2 : Request :=
  { path := "/api/words/", method := "GET",
    http_authorization := "Bearer api_c9",
    http_x_forwarded_for := none, remote_addr := "1.2.3.4",
    user_is_authenticated := false }

/-- An API client token holding a permission row for Book only. -/
def c1tok : APIToken :=
  { id := "a1", token := "api_c1", name := "c1", client_name := "org",
    status := "active", expires_at := none, usage_count := 0,
    max_usage_count := none, rate_limit_per_hour := 1000,
    rate_limit_per_day := 10000, allowed_ips := [], allowed_endpoints := [],
    model_permissions := [
      { model_name := "Book", can_create := false, can_read := true,
        can_update := false, can_delete := false, can_list := true,
        can_bulk_create := false, can_bulk_update := false,
        can_bulk_delete := false, restricted_fields := [],
        readonly_fields := [] }] }

/-- Store holding c1tok. -/
def c1db : DB := { mobileTokens := [], apiTokens := [c1tok], usageLogs := [] }

/-- A permission-stage input for c1tok targeting the model Word, for
which the token has no permission row. -/
def c1inp : PermViewInput :=
  { token_type := some "api", token_id := "a1", method := "DELETE",
    url_name := some "word-detail", view_model := some "Word",
    raises := false }

/-- A permission-stage input whose route resolution raises. -/
def c10inp : PermViewInput :=
  { token_type := some "api", token_id := "a1", method := "GET",
    url_name := none, view_model := some "Word", raises := true }

end VocaTokens

open VocaTokens

/-- Helper: under the conditions that reach validation (non-exempt path,
unauthenticated user, Bearer scheme, non-empty credential),
process_request is the image of validate_token. -/
theorem process_request_eval (db : DB) (req : Request) (now : Int)
    (hex : EXEMPT_PATHS.any (fun p => strStarts req.path p) = false)
    (hau : req.user_is_authenticated = false)
    (hb : strStarts req.http_authorization "Bearer " = true)
    (hne : (extract_token_value req.http_authorization == "") = false) :
    process_request db req now =
      match validate_token db (extract_token_value req.http_authorization)
          req now with
      | .invalid err => .rejected 401 "Invalid token" err
      | .okMobile t => .attachedMobile t
      | .okApi t => .attachedApi t := by
  unfold process_request
  simp [hex, hau, hb, hne]

/-- Helper: validate_token on an api-prefixed credential found in the
store reduces to the validity, IP, endpoint and rate-limit checks. -/
theorem validate_token_api_eval (db : DB) (req : Request) (now : Int)
    (t : APIToken)
    (hmob : strStarts t.token "mob_" = false)
    (hapi : strStarts t.token "api_" = true)
    (hfind : db.apiTokens.find? (fun u => u.token == t.token) = some t) :
    validate_token db t.token req now =
      (if !t.is_valid now then .invalid "Token is expired or inactive"
       else if !t.allowed_ips.isEmpty
           && !t.allowed_ips.contains (get_client_ip req) then
         .invalid "IP address not allowed"
       else if !t.allowed_endpoints.isEmpty
           && !t.allowed_endpoints.contains req.path then
         .invalid "Endpoint not allowed"
       else
         match check_rate_limits db t now with
         | some err => .invalid err
         | none => .okApi t) := by
  unfold validate_token
  simp [hmob, hapi, hfind]

/-- Helper: validate_token on a mob-prefixed credential found in the
store reduces to the validity and IP checks. -/
theorem validate_token_mob_eval (db : DB) (req : Request) (now : Int)
    (t : MobileToken)
    (hmob : strStarts t.token "mob_" = true)
    (hfind : db.mobileTokens.find? (fun u => u.token == t.token) = some t) :
    validate_token db t.token req now =
      (if !t.is_valid now then .invalid "Token is expired or inactive"
       else if !t.allowed_ips.isEmpty
           && !t.allowed_ips.contains (get_client_ip req) then
         .invalid "IP address not allowed"
       else .okMobile t) := by
  unfold validate_token
  simp [hmob, hfind]

/-- Helper: the mobile is_valid method as an explicit formula, with the
Python truthiness of max_usage_count made visible (a stored 0 imposes no
ceiling). -/
theorem mobile_is_valid_iff (t : MobileToken) (now : Int) :
    t.is_valid now = true ↔
      t.status = "active" ∧ (∀ e, t.expires_at = some e → now < e) ∧
      (∀ m, t.max_usage_count = some m → m = 0 ∨ t.usage_count < m) := by
  rcases t with ⟨i, tk, nm, rl, st, eo, uc, mo, ai⟩
  simp only [MobileToken.is_valid]
  cases eo <;> cases mo <;> simp [bne_iff_ne, imp_false, and_assoc]

/-- Helper: the api is_valid method as an explicit formula. -/
theorem api_is_valid_iff (t : APIToken) (now : Int) :
    t.is_valid now = true ↔
      t.status = "active" ∧ (∀ e, t.expires_at = some e → now < e) ∧
      (∀ m, t.max_usage_count = some m → m = 0 ∨ t.usage_count < m) := by
  rcases t with ⟨i, tk, nm, cn, st, eo, uc, mo, rh, rd, ai, ae, mp⟩
  simp only [APIToken.is_valid]
  cases eo <;> cases mo <;> simp [bne_iff_ne, imp_false, and_assoc]

/-- Claim C2 (corrected): the claimed validity formula disagrees with
the code when maxUsageCount is stored as 0 — Python truthiness makes the
code skip the ceiling check, so an active unexpired token with
maxUsageCount = 0 and usageCount = 1 authenticates although the claimed
formula (usageCount < maxUsageCount) calls it invalid. -/
theorem C2_validity_counterexample :
    MobileToken.is_valid c2tok 0 = true ∧
      claim_valid c2tok.status c2tok.expires_at c2tok.usage_count
        c2tok.max_usage_count 0 = false := by
  constructor <;> rfl

/-- Claim C2 (amended): for both token kinds, authentication-time
validity holds exactly when status is active, expiresAt is unset or
strictly in the future, and maxUsageCount is unset OR ZERO or usageCount
is strictly below it; in particular a revoked token is never valid. -/
theorem C2_validity_amended (now : Int) (t : MobileToken) (u : APIToken) :
    (t.is_valid now = true ↔
      t.status = "active" ∧ (∀ e, t.expires_at = some e → now < e) ∧
      (∀ m, t.max_usage_count = some m → m = 0 ∨ t.usage_count < m)) ∧
    (u.is_valid now = true ↔
      u.status = "active" ∧ (∀ e, u.expires_at = some e → now < e) ∧
      (∀ m, u.max_usage_count = some m → m = 0 ∨ u.usage_count < m)) ∧
    (t.status = "revoked" → t.is_valid now = false) ∧
    (u.status = "revoked" → u.is_valid now = false) := by
  refine ⟨mobile_is_valid_iff t now, api_is_valid_iff u now, ?_, ?_⟩
  · intro h
    cases hv : t.is_valid now
    · rfl
    · rcases (mobile_is_valid_iff t now).mp hv with ⟨ha, -, -⟩
      rw [h] at ha
      exact absurd ha (by decide)
  · intro h
    cases hv : u.is_valid now
    · rfl
    · rcases (api_is_valid_iff u now).mp hv with ⟨ha, -, -⟩
      rw [h] at ha
      exact absurd ha (by decide)

/-- Claim C3 (code bug): the operator activate actions and the bulk
activate action set status to active unconditionally, so a revoked token
is transitioned back to active — the code at the failing input
contradicts the claimed terminality of revoked. -/
theorem C3_activate_reactivates_revoked :
    c3mob.status = "revoked" ∧ (MobileToken.activate c3mob).status = "active" ∧
    c3api.status = "revoked" ∧ (APIToken.activate c3api).status = "active" ∧
    bulk_action_status [c3api] "activate" =
      [{ c3api with status := "active" }] := by
  refine ⟨rfl, rfl, rfl, rfl, rfl⟩

/-- Claim C9 (corrected): the middleware does reply 401 with the
constant generic error field "Invalid token", but the accompanying
message is the cause-distinguishing text, sent to the client: an unknown
api credential and a revoked token produce different client-visible
messages. -/
theorem C9_generic_error_counterexample :
    process_request c4db c9req 0 =
      AuthOutcome.rejected 401 "Invalid token" "API token not found" ∧
    process_request c9db c9req2 0 =
      AuthOutcome.rejected 401 "Invalid token" "Token is expired or inactive" ∧
    ("API token not found" : String) ≠ "Token is expired or inactive" := by
  refine ⟨rfl, rfl, by decide⟩

/-- Claim C9 (amended): every rejection process_request produces carries
status 401 and the constant generic error field "Invalid token"; the
cause-distinguishing text travels in the message field of the same
client response rather than only in internal logs. -/
theorem C9_generic_error_amended (db : DB) (req : Request) (now : Int)
    (s : Nat) (e m : String)
    (h : process_request db req now = .rejected s e m) :
    s = 401 ∧ e = "Invalid token" := by
  unfold process_request at h
  split at h
  · simp at h
  split at h
  · simp at h
  split at h
  · simp at h
  dsimp only at h
  split at h
  · simp at h
  split at h
  next err heq =>
    rw [AuthOutcome.rejected.injEq] at h
    exact ⟨h.1.symm, h.2.1.symm⟩
  next t heq => simp at h
  next t heq => simp at h

/-- Witness for C9: the amended theorem applied at the unknown-token
input. -/
theorem C9_generic_error_witness :
    (401 : Nat) = 401 ∧ ("Invalid token" : String) = "Invalid token" :=
  C9_generic_error_amended c4db c9req 0 401 "Invalid token"
    "API token not found" (by rfl)

/-- Claim C4 (corrected): a Bearer credential with neither literal
prefix does not pass through — at a concrete JWT-shaped credential on a
non-exempt path the Authentication Stage answers with a 401 error
response. -/
theorem C4_unknown_format_counterexample :
    process_request c4db c4req 0 ≠ AuthOutcome.passThrough ∧
    process_request c4db c4req 0 =
      AuthOutcome.rejected 401 "Invalid token" "Invalid token format" := by
  exact ⟨by decide, rfl⟩

/-- Claim C4 (amended): for every request whose bearer credential starts
with neither "mob_" nor "api_", the Authentication Stage middleware
rejects the request with a 401 "Invalid token format" response; it
passes through only on exempt paths, already-authenticated users,
non-Bearer headers, or an empty credential. -/
theorem C4_unknown_format_amended (db : DB) (req : Request) (now : Int)
    (hex : EXEMPT_PATHS.any (fun p => strStarts req.path p) = false)
    (hau : req.user_is_authenticated = false)
    (hb : strStarts req.http_authorization "Bearer " = true)
    (hne : (extract_token_value req.http_authorization == "") = false)
    (hmob : strStarts (extract_token_value req.http_authorization) "mob_"
      = false)
    (hapi : strStarts (extract_token_value req.http_authorization) "api_"
      = false) :
    process_request db req now =
      AuthOutcome.rejected 401 "Invalid token" "Invalid token format" := by
  rw [process_request_eval db req now hex hau hb hne]
  unfold validate_token
  simp [hmob, hapi]

/-- Witness for C4: the amended theorem applied at the JWT-shaped
credential. -/
theorem C4_unknown_format_witness :
    process_request c4db c4req 0 =
      AuthOutcome.rejected 401 "Invalid token" "Invalid token format" :=
  C4_unknown_format_amended c4db c4req 0 rfl rfl rfl rfl rfl rfl

/-- Claim C6 (corrected): Scenario D rejects as claimed, but with a 401
response, not a 403-equivalent: the IP-restriction failure flows through
the same 401 JsonResponse as every other validation failure. -/
theorem C6_ip_restriction_counterexample :
    process_request c6db c6req 0 =
      AuthOutcome.rejected 401 "Invalid token" "IP address not allowed" ∧
    (401 : Nat) ≠ 403 := by
  exact ⟨rfl, by decide⟩

/-- Claim C6 (amended): for every token (mobile or api) with a non-empty
allowedIPs list, a request presenting that token from a resolved client
IP outside the list is rejected with a 401 response (not 403), and this
holds regardless of the validity of the token. -/
theorem C6_ip_restriction_amended :
    (∀ (db : DB) (req : Request) (now : Int) (t : MobileToken),
      EXEMPT_PATHS.any (fun p => strStarts req.path p) = false →
      req.user_is_authenticated = false →
      strStarts req.http_authorization "Bearer " = true →
      extract_token_value req.http_authorization = t.token →
      (t.token == "") = false →
      strStarts t.token "mob_" = true →
      db.mobileTokens.find? (fun u => u.token == t.token) = some t →
      t.allowed_ips.isEmpty = false →
      t.allowed_ips.contains (get_client_ip req) = false →
      ∃ msg, process_request db req now =
        AuthOutcome.rejected 401 "Invalid token" msg) ∧
    (∀ (db : DB) (req : Request) (now : Int) (t : APIToken),
      EXEMPT_PATHS.any (fun p => strStarts req.path p) = false →
      req.user_is_authenticated = false →
      strStarts req.http_authorization "Bearer " = true →
      extract_token_value req.http_authorization = t.token →
      (t.token == "") = false →
      strStarts t.token "mob_" = false →
      strStarts t.token "api_" = true →
      db.apiTokens.find? (fun u => u.token == t.token) = some t →
      t.allowed_ips.isEmpty = false →
      t.allowed_ips.contains (get_client_ip req) = false →
      ∃ msg, process_request db req now =
        AuthOutcome.rejected 401 "Invalid token" msg) := by
  constructor
  · intro db req now t hex hau hb htv hne' hmob hfind hips hnotin
    have hne : (extract_token_value req.http_authorization == "") = false := by
      rw [htv]; exact hne'
    rw [process_request_eval db req now hex hau hb hne, htv,
      validate_token_mob_eval db req now t hmob hfind]
    have hmem : get_client_ip req ∉ t.allowed_ips := by simpa using hnotin
    cases hv : t.is_valid now
    · exact ⟨"Token is expired or inactive", by simp [hv]⟩
    · exact ⟨"IP address not allowed", by simp [hv, hips, hmem]⟩
  · intro db req now t hex hau hb htv hne' hmob hapi hfind hips hnotin
    have hne : (extract_token_value req.http_authorization == "") = false := by
      rw [htv]; exact hne'
    rw [process_request_eval db req now hex hau hb hne, htv,
      validate_token_api_eval db req now t hmob hapi hfind]
    have hmem : get_client_ip req ∉ t.allowed_ips := by simpa using hnotin
    cases hv : t.is_valid now
    · exact ⟨"Token is expired or inactive", by simp [hv]⟩
    · exact ⟨"IP address not allowed", by simp [hv, hips, hmem]⟩

/-- Claim C5 (corrected): the breached-ceiling rejection is a 401
response, not a 429-equivalent: at a token with hourly ceiling 1 and one
log row inside the trailing hour, the request is rejected with status
401. -/
theorem C5_rate_limit_counterexample :
    process_request c5db c5req 3600 =
      AuthOutcome.rejected 401 "Invalid token"
        "Hourly rate limit exceeded (1 requests/hour)" ∧
    (401 : Nat) ≠ 429 := by
  exact ⟨rfl, by decide⟩

/-- Claim C5 (amended): the rate limiter counts usage-log rows for the
exact token inside the trailing hour and the trailing day, and when
either count has reached its ceiling the request is rejected before the
handler runs — with a 401 response (not a 429-equivalent), since every
validation failure shares the middleware's 401 JsonResponse. -/
theorem C5_rate_limit_amended (db : DB) (req : Request) (now : Int)
    (t : APIToken)
    (hex : EXEMPT_PATHS.any (fun p => strStarts req.path p) = false)
    (hau : req.user_is_authenticated = false)
    (hb : strStarts req.http_authorization "Bearer " = true)
    (htv : extract_token_value req.http_authorization = t.token)
    (hne' : (t.token == "") = false)
    (hmob : strStarts t.token "mob_" = false)
    (hapi : strStarts t.token "api_" = true)
    (hfind : db.apiTokens.find? (fun u => u.token == t.token) = some t)
    (hv : t.is_valid now = true)
    (hip : (!t.allowed_ips.isEmpty
      && !t.allowed_ips.contains (get_client_ip req)) = false)
    (hep : (!t.allowed_endpoints.isEmpty
      && !t.allowed_endpoints.contains req.path) = false)
    (hrate : hourly_usage db t now ≥ t.rate_limit_per_hour ∨
      daily_usage db t now ≥ t.rate_limit_per_day) :
    ∃ msg, process_request db req now =
      AuthOutcome.rejected 401 "Invalid token" msg := by
  have hne : (extract_token_value req.http_authorization == "") = false := by
    rw [htv]; exact hne'
  rw [process_request_eval db req now hex hau hb hne, htv,
    validate_token_api_eval db req now t hmob hapi hfind]
  simp only [hv, hip, hep, Bool.not_true, Bool.false_eq_true, if_false]
  unfold check_rate_limits
  by_cases hh : hourly_usage db t now ≥ t.rate_limit_per_hour
  · rw [if_pos hh]
    exact ⟨_, rfl⟩
  · rcases hrate with h | h
    · exact absurd h hh
    · rw [if_neg hh, if_pos h]
      exact ⟨_, rfl⟩

/-- Witness for C5: the amended theorem applied at the ceiling-1 token
with one row in the window. -/
theorem C5_rate_limit_witness :
    ∃ msg, process_request c5db c5req 3600 =
      AuthOutcome.rejected 401 "Invalid token" msg :=
  C5_rate_limit_amended c5db c5req 3600 c5tok rfl rfl rfl rfl rfl rfl rfl
    rfl rfl rfl rfl (Or.inl (by decide))

/-- Claim C7 (corrected): the endpoint restriction is exact list
membership, not substring matching, and the rejection is 401, not 403:
a path that contains the allowed entry "/api/words/" as a proper
substring is rejected. -/
theorem C7_endpoint_restriction_counterexample :
    spec_endpoint_allowed c7tok.allowed_endpoints c7req.path = true ∧
    process_request c7db c7req 0 =
      AuthOutcome.rejected 401 "Invalid token" "Endpoint not allowed" ∧
    (401 : Nat) ≠ 403 := by
  exact ⟨rfl, rfl, by decide⟩

/-- Claim C7 (amended): for an API-client token with a non-empty
allowedEndpoints list, a request passes the endpoint restriction exactly
when its path is equal to one of the listed entries (exact list
membership); when none is equal the request is rejected with a 401
response.  (The substring semantics the claim describes exists only in
the separate DRF authentication backend, not in this middleware.) -/
theorem C7_endpoint_restriction_amended (db : DB) (req : Request)
    (now : Int) (t : APIToken)
    (hex : EXEMPT_PATHS.any (fun p => strStarts req.path p) = false)
    (hau : req.user_is_authenticated = false)
    (hb : strStarts req.http_authorization "Bearer " = true)
    (htv : extract_token_value req.http_authorization = t.token)
    (hne' : (t.token == "") = false)
    (hmob : strStarts t.token "mob_" = false)
    (hapi : strStarts t.token "api_" = true)
    (hfind : db.apiTokens.find? (fun u => u.token == t.token) = some t)
    (hv : t.is_valid now = true)
    (hip : (!t.allowed_ips.isEmpty
      && !t.allowed_ips.contains (get_client_ip req)) = false)
    (hepne : t.allowed_endpoints.isEmpty = false) :
    (t.allowed_endpoints.contains req.path = false →
      process_request db req now =
        AuthOutcome.rejected 401 "Invalid token" "Endpoint not allowed") ∧
    (t.allowed_endpoints.contains req.path = true →
      process_request db req now =
        match check_rate_limits db t now with
        | some err => AuthOutcome.rejected 401 "Invalid token" err
        | none => AuthOutcome.attachedApi t) := by
  have hne : (extract_token_value req.http_authorization == "") = false := by
    rw [htv]; exact hne'
  rw [process_request_eval db req now hex hau hb hne, htv,
    validate_token_api_eval db req now t hmob hapi hfind]
  constructor
  · intro hcon
    simp only [hv, hip, hepne, hcon, Bool.not_true, Bool.not_false,
      Bool.false_eq_true, Bool.and_self, if_false, if_true]
  · intro hcon
    simp only [hv, hip, hepne, hcon, Bool.not_true, Bool.not_false,
      Bool.and_false, Bool.false_eq_true, if_false]
    cases hcr : check_rate_limits db t now <;> simp only [hcr]

/-- Witness for C7: the amended theorem applied at a path outside the
allow-list. -/
theorem C7_endpoint_restriction_witness :
    process_request c7db c7wreq 0 =
      AuthOutcome.rejected 401 "Invalid token" "Endpoint not allowed" :=
  (C7_endpoint_restriction_amended c7db c7wreq 0 c7tok rfl rfl rfl rfl rfl
    rfl rfl rfl rfl rfl rfl).1 rfl

/-- Claim C1 (confirmed): an API-client request whose resolved target
model has no permission row for the token is answered 403 by the
Authorization Stage, whatever the HTTP method and resolved url name —
the default-deny branch runs before any method dispatch. -/
theorem C1_missing_permission_denied (db : DB) (inp : PermViewInput)
    (t : APIToken) (model_name : String)
    (h1 : inp.token_type = some "api")
    (h2 : inp.raises = false)
    (h3 : inp.view_model = some model_name)
    (h4 : db.apiTokens.find? (fun u => u.id == inp.token_id) = some t)
    (h5 : t.model_permissions.filter (fun p => p.model_name == model_name)
      = []) :
    process_view db inp =
      some (403, "Permission denied",
        "Token does not have permissions for " ++ model_name) := by
  unfold process_view
  simp [h1, h2, h3, h4, h5]

/-- Witness for C1: the default-deny theorem applied at a token holding
only a Book permission row, targeting Word with a DELETE. -/
theorem C1_missing_permission_denied_witness :
    process_view c1db c1inp =
      some (403, "Permission denied",
        "Token does not have permissions for " ++ "Word") :=
  C1_missing_permission_denied c1db c1inp c1tok "Word" rfl rfl rfl rfl rfl

/-- Claim C10 (confirmed): for an API-client request, an exception
raised while resolving the route, view model or permission rows is
swallowed and the request continues to the handler, and a view without a
model-backed queryset is likewise let through. -/
theorem C10_fail_open (db : DB) (inp : PermViewInput)
    (h1 : inp.token_type = some "api")
    (h2 : inp.raises = true ∨ inp.view_model = none) :
    process_view db inp = none := by
  unfold process_view
  rcases h2 with h | h
  · simp [h1, h]
  · cases hr : inp.raises <;> simp [h1, hr, h]

/-- Witness for C10: the fail-open theorem applied at an input whose
resolution raises. -/
theorem C10_fail_open_witness : process_view c1db c10inp = none :=
  C10_fail_open c1db c10inp rfl (Or.inl rfl)

/-- Claim C8 (corrected): two concurrent requests that both meter
through increment_usage (read-modify-write in application code) can
interleave read-read-write-write, leaving the stored counter at 1
instead of 2 — a lost update. -/
theorem C8_lost_update_counterexample :
    (rmw_run { db := 0, r1 := none, r2 := none }
      [RmwAction.read1, RmwAction.read2, RmwAction.write1,
        RmwAction.write2]).db = 1 ∧
    (1 : Nat) ≠ 2 := by
  exact ⟨rfl, by decide⟩

/-- Claim C8 (amended): requests metered by the middleware's
log_token_usage apply the storage-layer F-expression increment, one
atomic step each, so any serial interleaving of k such updates raises
the counter by exactly k; the read-modify-write increment_usage method
(used by the validation endpoint and the DRF authentication backend)
does not enjoy this property. -/
theorem C8_usage_count_amended (db0 k : Nat) :
    run_atomic db0 k = db0 + k := by
  induction k with
  | zero => rfl
  | succ n ih =>
    show f_expression_increment (run_atomic db0 n) = db0 + (n + 1)
    rw [ih]
    rfl
